import Mathlib

/-!
Verification development for the CNTK-to-ELL importer
(`src/tools/importers/CNTK/lib/cntk_layers.py`).

The Python module is shallowly embedded: the opaque CNTK graph nodes become a
record of exactly the fields the importer reads; Python exceptions become an
`Except PyErr` result; the `ell_*` annotations the importer bolts onto the
foreign node objects become fields of the `LayerObject` wrapper record.
Helpers that live in the sibling modules `cntk_utilities.py` / `cntk_converters.py`
(which are not part of the sources being verified) are modelled from the spec and
are marked as such in their doc comments.  Numeric tensor payloads (weights,
biases, statistics) are pure data marshalling per the spec and are not carried
by the embedded primitive layers; every structural field (shapes, paddings,
attribute reads, layer kinds and order) is kept.
-/

/-- The ELL padding schemes used by the importer, plus the `none` scheme of the
spec's padding data model (ELL's `NoPadding`). -/
inductive PaddingScheme where
  | zeros
  | min
  | none
deriving DecidableEq

/-- ELL.PaddingParameters: a padding scheme together with a padding size. -/
structure PaddingParameters where
  paddingScheme : PaddingScheme
  paddingSize : Nat
deriving DecidableEq

/-- Modelled from the spec: `ELL.NoPadding()` — the `none` padding
(scheme `none`, size 0; §3 of the spec). -/
def NoPadding : PaddingParameters :=
  { paddingScheme := PaddingScheme.none, paddingSize := 0 }

/-- An ELL tensor shape: (rows, columns, channels). -/
structure TensorShape where
  rows : Nat
  columns : Nat
  channels : Nat
deriving DecidableEq

/-- Modelled from the spec: `cntk_utilities.get_shape` (not under src/) — maps a
framework shape tuple to the (rows, columns, channels) triple of §3.  A rank-3
extent is read as (rows, columns, channels); any other rank is a channel-only
shape. -/
def get_shape : List Nat → TensorShape
  | [r, c, ch] => { rows := r, columns := c, channels := ch }
  | s => { rows := 1, columns := 1, channels := s.foldl (fun a b => a * b) 1 }

/-- Modelled from the spec: `cntk_utilities.get_adjusted_shape` (not under src/) —
adds `2 × padding.size` to each spatial dimension of the base shape, leaving the
channel dimension untouched (§4.1). -/
def get_adjusted_shape (s : List Nat) (p : PaddingParameters) : TensorShape :=
  let base := get_shape s
  { rows := base.rows + 2 * p.paddingSize,
    columns := base.columns + 2 * p.paddingSize,
    channels := base.channels }

/-- The Python exceptions the importer can raise or catch. -/
inductive PyErr where
  | valueError (msg : String)
  | attributeError
  | indexError
  | keyError
  | runtimeError (msg : String)
deriving DecidableEq

/-- Python `xs[i]` on a list: `IndexError` when out of range. -/
def pyListGet {α : Type} (xs : List α) (i : Nat) : Except PyErr α :=
  match xs.get? i with
  | Option.some v => Except.ok v
  | Option.none => Except.error PyErr.indexError

/-- Python attribute access on an object that may lack the attribute:
`AttributeError` when missing. -/
def pyAttr {α : Type} (o : Option α) : Except PyErr α :=
  match o with
  | Option.some v => Except.ok v
  | Option.none => Except.error PyErr.attributeError

/-- Python `d[key]` on a dict: `KeyError` when the key is missing. -/
def pyKey {α : Type} (o : Option α) : Except PyErr α :=
  match o with
  | Option.some v => Except.ok v
  | Option.none => Except.error PyErr.keyError

/-- ELL activation function tags. -/
inductive ActivationType where
  | relu
  | leaky
  | sigmoid
deriving DecidableEq

/-- ELL pooling function tags (`ELL.PoolingType.max` / `ELL.PoolingType.mean`). -/
inductive PoolingType where
  | max
  | mean
deriving DecidableEq

/-- The CNTK `poolingType` attribute value (`PoolingType_Max` or average). -/
inductive CntkPoolingType where
  | maxPool
  | averagePool
deriving DecidableEq

/-- The value buffer of a CNTK parameter or constant; only its element count is
structurally relevant to the importer. -/
structure CntkValue where
  size : Nat
deriving DecidableEq

/-- A named CNTK parameter or constant with its value buffer and shape. -/
structure CntkParameter where
  name : String := ""
  shape : List Nat := []
  value : CntkValue := { size := 1 }
deriving DecidableEq

/-- A CNTK variable (argument / input / output) with its shape and name.  For
binary convolution the importer also follows the variable's owner function
(`owner.name`, `owner.parameters`). -/
structure CntkVariable where
  shape : List Nat
  name : String := ""
  ownerName : String := ""
  ownerParameters : List CntkParameter := []
deriving DecidableEq

/-- The string-keyed CNTK attribute map, restricted to the keys the importer
reads.  A field holding `Option.none` models the key being absent. -/
structure CntkAttributes where
  autoPadding : Option (List Bool) := Option.none
  upperPad : Option (List Nat) := Option.none
  strides : Option (List Nat) := Option.none
  poolingWindowShape : Option (List Nat) := Option.none
  poolingType : Option CntkPoolingType := Option.none
deriving DecidableEq

/-- An opaque CNTK graph node, restricted to the fields the importer reads.
`blockConvAttributes` models the result of the `depth_first_search` for the
inner raw `Convolution` node of a Convolution block (`Option.none` when the
search finds nothing); `blockInternalActivation` / `blockInternalSoftmax` model
the spec's activation detection over the block's internal sub-graph
(`cntk_utilities.get_activation_type` / `is_softmax_activation`, modelled from
the spec since they are not under src/). -/
structure CntkNode where
  op_name : String
  is_block : Bool := false
  isFunction : Bool := true
  arguments : List CntkVariable := []
  inputs : List CntkVariable := []
  parameters : List CntkParameter := []
  constants : List CntkParameter := []
  attributes : CntkAttributes := {}
  output : CntkVariable := { shape := [] }
  blockRootAttributes : CntkAttributes := {}
  blockConvAttributes : Option CntkAttributes := Option.none
  blockInternalActivation : Option ActivationType := Option.none
  blockInternalSoftmax : Bool := false
deriving DecidableEq

/-- Modelled from the spec: `cntk_utilities.find_parameter_by_name` (not under
src/) — the parameter list is named (§6); the lookup finds the parameter with
the given name, falling back to the given positional index when present. -/
def find_parameter_by_name (ps : List CntkParameter) (nm : String) (idx : Option Nat) :
    Option CntkParameter :=
  match ps.find? (fun p => p.name == nm) with
  | Option.some p => Option.some p
  | Option.none =>
    match idx with
    | Option.some i => ps.get? i
    | Option.none => Option.none

/-- The wrapper classes of the importer, one per Python class that the factory
can construct (`basePooling` is abstract and has no tag). -/
inductive LayerKind where
  | dense
  | binaryConvolution
  | convolution
  | linear
  | elementTimes
  | maxPooling
  | averagePooling
  | pooling
  | relu
  | leakyRelu
  | prelu
  | softmax
  | batchNormalization
  | bias
  | negativeBias
deriving DecidableEq

/-- A classified layer wrapper: the wrapped node, the `ell_*` annotations the
importer attaches to it, and the per-class fields the constructors store on the
wrapper object.  Output characteristics default until
`set_output_characteristics` runs. -/
structure LayerObject where
  kind : LayerKind
  node : CntkNode
  inputShapeRaw : List Nat
  ellInputShape : TensorShape
  ellInputPadding : PaddingParameters
  ellOutputShape : TensorShape := { rows := 0, columns := 0, channels := 0 }
  ellOutputPadding : PaddingParameters := NoPadding
  ellOutputShapeMinusPadding : TensorShape := { rows := 0, columns := 0, channels := 0 }
  subAttributes : Option CntkAttributes := Option.none
  weightsParameter : Option CntkParameter := Option.none
  biasParameter : Option CntkParameter := Option.none
  scaleParameter : Option CntkParameter := Option.none
  preluParameter : Option CntkParameter := Option.none
  paddingScheme : Option PaddingScheme := Option.none
  poolingType : Option PoolingType := Option.none
  actualPoolingType : Option PoolingType := Option.none
deriving DecidableEq

/-- `BaseLayer.get_input_padding_parameters`: zero-fill padding of size 0. -/
def defaultInputPadding : PaddingParameters :=
  { paddingScheme := PaddingScheme.zeros, paddingSize := 0 }

/-- `ConvolutionLayer.get_input_padding_parameters` (textually identical in
`BinaryConvolutionLayer`): receptive field is `weights_parameter.shape[2]`;
auto-padding at spatial index 1 selects `int((receptiveField - 1) / 2)`,
otherwise the explicit `upperPad[0]` is used. -/
def convInputPadding (weights : Option CntkParameter) (attrs : CntkAttributes) :
    Except PyErr PaddingParameters :=
  match weights with
  | Option.none => Except.error PyErr.attributeError
  | Option.some w =>
    match w.shape.get? 2 with
    | Option.none => Except.error PyErr.indexError
    | Option.some receptiveField =>
      match attrs.autoPadding with
      | Option.some ap =>
        match ap.get? 1 with
        | Option.none => Except.error PyErr.indexError
        | Option.some b =>
          if b then
            Except.ok { paddingScheme := PaddingScheme.zeros,
                        paddingSize := (receptiveField - 1) / 2 }
          else
            match attrs.upperPad with
            | Option.none => Except.error PyErr.keyError
            | Option.some up =>
              match up.get? 0 with
              | Option.none => Except.error PyErr.indexError
              | Option.some u =>
                Except.ok { paddingScheme := PaddingScheme.zeros, paddingSize := u }
      | Option.none =>
        match attrs.upperPad with
        | Option.none => Except.error PyErr.keyError
        | Option.some up =>
          match up.get? 0 with
          | Option.none => Except.error PyErr.indexError
          | Option.some u =>
            Except.ok { paddingScheme := PaddingScheme.zeros, paddingSize := u }

/-- `BasePoolingLayer.get_input_padding_parameters`: auto-padding at spatial
index 0 selects `int((poolingWindowShape[0] - 1) / 2)`, otherwise `upperPad[0]`;
the scheme is the subclass's `padding_scheme` attribute (`AttributeError` when
the subclass never set one, as in the generic `PoolingLayer`). -/
def basePoolingPadding (attrs : CntkAttributes) (scheme : Option PaddingScheme) :
    Except PyErr PaddingParameters :=
  match
    (match attrs.autoPadding with
     | Option.some ap =>
       match ap.get? 0 with
       | Option.none => Except.error PyErr.indexError
       | Option.some b =>
         if b then
           match attrs.poolingWindowShape with
           | Option.none => Except.error PyErr.keyError
           | Option.some pw =>
             match pw.get? 0 with
             | Option.none => Except.error PyErr.indexError
             | Option.some p0 => Except.ok ((p0 - 1) / 2)
         else
           match attrs.upperPad with
           | Option.none => Except.error PyErr.keyError
           | Option.some up =>
             match up.get? 0 with
             | Option.none => Except.error PyErr.indexError
             | Option.some u => Except.ok u
     | Option.none =>
       match attrs.upperPad with
       | Option.none => Except.error PyErr.keyError
       | Option.some up =>
         match up.get? 0 with
         | Option.none => Except.error PyErr.indexError
         | Option.some u => Except.ok u : Except PyErr Nat)
  with
  | Except.error e => Except.error e
  | Except.ok padding =>
    match scheme with
    | Option.none => Except.error PyErr.attributeError
    | Option.some s => Except.ok { paddingScheme := s, paddingSize := padding }

/-- The shared tail of `BaseLayer.__init__`: resolve the wrapper's input shape
(taken from the subclass when it pre-set one, else from `arguments[0]` when that
has a non-empty shape) and compute `ell_inputShape`; a wrapper with no
resolvable input shape is the fatal `RuntimeError` of the source. -/
def baseLayerInit (node : CntkNode) (pad : PaddingParameters) (preset : Option (List Nat)) :
    Except PyErr (List Nat × TensorShape) :=
  let ishape : Option (List Nat) :=
    match preset with
    | Option.some s => Option.some s
    | Option.none =>
      match node.arguments with
      | a :: _ => if a.shape.length > 0 then Option.some a.shape else Option.none
      | [] => Option.none
  match ishape with
  | Option.some s => Except.ok (s, get_adjusted_shape s pad)
  | Option.none => Except.error (PyErr.runtimeError "Could not initialize input_shape")

/-- `DenseLayer.__init__`. -/
def denseLayerInit (node : CntkNode) : Except PyErr LayerObject := do
  if !node.is_block then
    throw (PyErr.valueError "Dense node is not a block node")
  let pad := defaultInputPadding
  let (s, ell) ← baseLayerInit node pad Option.none
  pure { kind := LayerKind.dense, node := node, inputShapeRaw := s,
         ellInputShape := ell, ellInputPadding := pad }

/-- `LinearLayer.__init__`. -/
def linearLayerInit (node : CntkNode) : Except PyErr LayerObject := do
  let pad := defaultInputPadding
  let (s, ell) ← baseLayerInit node pad Option.none
  pure { kind := LayerKind.linear, node := node, inputShapeRaw := s,
         ellInputShape := ell, ellInputPadding := pad }

/-- `ConvolutionLayer.__init__`: requires a block node, takes the input from
`arguments[0]`, the weight and bias parameters by name, and the convolution
attributes from the inner raw Convolution node of the block
(`depth_first_search(...)[0]`, an `IndexError` when the search is empty). -/
def convolutionLayerInit (node : CntkNode) : Except PyErr LayerObject := do
  if !node.is_block then
    throw (PyErr.valueError "Error: Convolution layer node is not in block node")
  let input_parameter ← pyListGet node.arguments 0
  let weights := find_parameter_by_name node.parameters "W" (Option.some 0)
  let bias := find_parameter_by_name node.parameters "b" (Option.some 1)
  let attrs ←
    match node.blockConvAttributes with
    | Option.some a => pure a
    | Option.none => throw PyErr.indexError
  let pad ← convInputPadding weights attrs
  let (s, ell) ← baseLayerInit node pad (Option.some input_parameter.shape)
  pure { kind := LayerKind.convolution, node := node, inputShapeRaw := s,
         ellInputShape := ell, ellInputPadding := pad,
         subAttributes := Option.some attrs,
         weightsParameter := weights, biasParameter := bias }

/-- `BinaryConvolutionLayer.__init__`: requires a non-block node, picks the
rank-3 input among `inputs[0]` / `inputs[1]`, takes the weights from the other
input's owner, and rejects any binarization-function name other than "Sign". -/
def binaryConvolutionLayerInit (node : CntkNode) : Except PyErr LayerObject := do
  if node.is_block then
    throw (PyErr.valueError "Error: Binary Convolution layer node is in block node")
  let i0 ← pyListGet node.inputs 0
  let (input_parameter, weights_input) ←
    if i0.shape.length == 3 then do
      let i1 ← pyListGet node.inputs 1
      pure (i0, i1)
    else do
      let i1 ← pyListGet node.inputs 1
      pure (i1, i0)
  let weights := find_parameter_by_name weights_input.ownerParameters "filter" Option.none
  let attrs := node.attributes
  if weights_input.ownerName != "Sign" then
    throw (PyErr.valueError ("Error: unrecognized binarization function: "
      ++ weights_input.ownerName))
  let pad ← convInputPadding weights attrs
  let (s, ell) ← baseLayerInit node pad (Option.some input_parameter.shape)
  pure { kind := LayerKind.binaryConvolution, node := node, inputShapeRaw := s,
         ellInputShape := ell, ellInputPadding := pad,
         subAttributes := Option.some attrs, weightsParameter := weights }

/-- `ElementTimesLayer.__init__`: note the Python guard uses `and`, so it only
rejects when the parameter count and the constant count are both different
from 1; the scale is `constants[0]` when any constant exists, else
`parameters[0]`. -/
def elementTimesLayerInit (node : CntkNode) : Except PyErr LayerObject := do
  if node.parameters.length != 1 && node.constants.length != 1 then
    throw (PyErr.valueError
      "Skipping ElementTimes layer due to dimensions of Constants and Parameters")
  let scale : Option CntkParameter :=
    match node.constants with
    | c :: _ => Option.some c
    | [] =>
      match node.parameters with
      | p :: _ => Option.some p
      | [] => Option.none
  let pad := defaultInputPadding
  let (s, ell) ← baseLayerInit node pad Option.none
  pure { kind := LayerKind.elementTimes, node := node, inputShapeRaw := s,
         ellInputShape := ell, ellInputPadding := pad, scaleParameter := scale }

/-- `BasePoolingLayer.__init__`, parameterized by the subclass fields: the
attributes come from the block root for block nodes, else from the node. -/
def basePoolingLayerInit (kind : LayerKind) (scheme : Option PaddingScheme)
    (ptype : Option PoolingType) (node : CntkNode) : Except PyErr LayerObject := do
  let attrs := if node.is_block then node.blockRootAttributes else node.attributes
  let pad ← basePoolingPadding attrs scheme
  let (s, ell) ← baseLayerInit node pad Option.none
  pure { kind := kind, node := node, inputShapeRaw := s,
         ellInputShape := ell, ellInputPadding := pad,
         subAttributes := Option.some attrs,
         paddingScheme := scheme, poolingType := ptype }

/-- `MaxPoolingLayer.__init__`: min-value-fill scheme, max pooling. -/
def maxPoolingLayerInit (node : CntkNode) : Except PyErr LayerObject :=
  basePoolingLayerInit LayerKind.maxPooling (Option.some PaddingScheme.min)
    (Option.some PoolingType.max) node

/-- `AveragePoolingLayer.__init__`: zero-fill scheme, mean pooling. -/
def averagePoolingLayerInit (node : CntkNode) : Except PyErr LayerObject :=
  basePoolingLayerInit LayerKind.averagePooling (Option.some PaddingScheme.zeros)
    (Option.some PoolingType.mean) node

/-- The delegate selection of `PoolingLayer.__init__` (lines 542-545 of the
source): a `poolingType` equal to `PoolingType_Max` constructs an
`AveragePoolingLayer`, anything else constructs a `MaxPoolingLayer`. -/
def poolingSelect (node : CntkNode) (pt : CntkPoolingType) : Except PyErr LayerObject :=
  if pt = CntkPoolingType.maxPool then averagePoolingLayerInit node
  else maxPoolingLayerInit node

/-- `PoolingLayer.__init__`: runs the base initializer with no `padding_scheme`
set (the generic class never sets one before calling `super().__init__`), then
selects the delegate sub-wrapper from the `poolingType` attribute. -/
def poolingLayerInit (node : CntkNode) : Except PyErr LayerObject := do
  let base ← basePoolingLayerInit LayerKind.pooling Option.none Option.none node
  let attrs := if node.is_block then node.blockRootAttributes else node.attributes
  let pt ← pyKey attrs.poolingType
  let actual ← poolingSelect node pt
  pure { base with actualPoolingType := actual.poolingType }

/-- `ReLULayer.__init__`. -/
def reLULayerInit (node : CntkNode) : Except PyErr LayerObject := do
  let pad := defaultInputPadding
  let (s, ell) ← baseLayerInit node pad Option.none
  pure { kind := LayerKind.relu, node := node, inputShapeRaw := s,
         ellInputShape := ell, ellInputPadding := pad }

/-- `LeakyReLULayer.__init__`. -/
def leakyReLULayerInit (node : CntkNode) : Except PyErr LayerObject := do
  let pad := defaultInputPadding
  let (s, ell) ← baseLayerInit node pad Option.none
  pure { kind := LayerKind.leakyRelu, node := node, inputShapeRaw := s,
         ellInputShape := ell, ellInputPadding := pad }

/-- `PReLULayer.__init__`: base initializer first, then the `prelu` parameter. -/
def pReLULayerInit (node : CntkNode) : Except PyErr LayerObject := do
  let pad := defaultInputPadding
  let (s, ell) ← baseLayerInit node pad Option.none
  pure { kind := LayerKind.prelu, node := node, inputShapeRaw := s,
         ellInputShape := ell, ellInputPadding := pad,
         preluParameter := find_parameter_by_name node.parameters "prelu" (Option.some 0) }

/-- `SoftmaxLayer.__init__`. -/
def softmaxLayerInit (node : CntkNode) : Except PyErr LayerObject := do
  let pad := defaultInputPadding
  let (s, ell) ← baseLayerInit node pad Option.none
  pure { kind := LayerKind.softmax, node := node, inputShapeRaw := s,
         ellInputShape := ell, ellInputPadding := pad }

/-- `BatchNormalizationLayer.__init__`: scale / bias from the parameters,
aggregate mean / variance from the constants (payload only). -/
def batchNormalizationLayerInit (node : CntkNode) : Except PyErr LayerObject := do
  let scale := find_parameter_by_name node.parameters "scale" (Option.some 0)
  let pad := defaultInputPadding
  let (s, ell) ← baseLayerInit node pad Option.none
  pure { kind := LayerKind.batchNormalization, node := node, inputShapeRaw := s,
         ellInputShape := ell, ellInputPadding := pad, scaleParameter := scale }

/-- `BiasLayer.__init__` (Plus): rejects any node without exactly one
trainable parameter. -/
def biasLayerInit (node : CntkNode) : Except PyErr LayerObject := do
  if node.parameters.length != 1 then
    throw (PyErr.valueError "Only processing Plus functions that act as bias layers")
  let pad := defaultInputPadding
  let (s, ell) ← baseLayerInit node pad Option.none
  pure { kind := LayerKind.bias, node := node, inputShapeRaw := s,
         ellInputShape := ell, ellInputPadding := pad }

/-- `NegativeBiasLayer.__init__` (Minus).  The first guard is the Python
short-circuit `and`: `constants[0]` is only evaluated (and can only raise
`IndexError`) when the constant count differs from 1, and the `ValueError` is
only raised when additionally that first constant's size differs from 1. -/
def negativeBiasLayerInit (node : CntkNode) : Except PyErr LayerObject := do
  if node.constants.length != 1 then
    let c0 ← pyListGet node.constants 0
    if c0.value.size != 1 then
      throw (PyErr.valueError "Skipping Minus function due to dimensions of Constant")
  if node.output.name != "mean_removed_input" then
    throw (PyErr.valueError "Only processing Minus functions that remove input mean")
  let pad := defaultInputPadding
  let (s, ell) ← baseLayerInit node pad Option.none
  pure { kind := LayerKind.negativeBias, node := node, inputShapeRaw := s,
         ellInputShape := ell, ellInputPadding := pad }

/-- The dispatch table of `LayerFactory.get_layer_object` before its
`try` / `except`: an unrecognized operation name yields no wrapper. -/
def classifyStep (n : CntkNode) : Except PyErr (Option LayerObject) :=
  if n.op_name == "AveragePooling" then Option.some <$> averagePoolingLayerInit n
  else if n.op_name == "BatchNormalization" then Option.some <$> batchNormalizationLayerInit n
  else if n.op_name == "Convolution" then
    (if n.is_block then Option.some <$> convolutionLayerInit n
     else Option.some <$> binaryConvolutionLayerInit n)
  else if n.op_name == "Dense" then Option.some <$> denseLayerInit n
  else if n.op_name == "ElementTimes" then Option.some <$> elementTimesLayerInit n
  else if n.op_name == "LeakyReLU" then Option.some <$> leakyReLULayerInit n
  else if n.op_name == "linear" then Option.some <$> linearLayerInit n
  else if n.op_name == "MaxPooling" then Option.some <$> maxPoolingLayerInit n
  else if n.op_name == "Minus" then Option.some <$> negativeBiasLayerInit n
  else if n.op_name == "Plus" then Option.some <$> biasLayerInit n
  else if n.op_name == "Pooling" then Option.some <$> poolingLayerInit n
  else if n.op_name == "PReLU" then Option.some <$> pReLULayerInit n
  else if n.op_name == "ReLU" then Option.some <$> reLULayerInit n
  else if n.op_name == "Softmax" then Option.some <$> softmaxLayerInit n
  else Except.ok Option.none

/-- The errors the factory's `except (ValueError, AttributeError)` clause
catches — the recoverable classification failures of the spec. -/
def isClassificationError : PyErr → Bool
  | PyErr.valueError _ => true
  | PyErr.attributeError => true
  | _ => false

/-- `LayerFactory.get_layer_object`: the dispatch wrapped in
`try ... except (ValueError, AttributeError)`; a caught error yields `None`
(the node is skipped), any other exception propagates. -/
def get_layer_object (n : CntkNode) : Except PyErr (Option LayerObject) :=
  match classifyStep n with
  | Except.ok r => Except.ok r
  | Except.error (PyErr.valueError _) => Except.ok Option.none
  | Except.error PyErr.attributeError => Except.ok Option.none
  | Except.error e => Except.error e

/-- `LayerFactory.has_inputs`: a non-empty-shaped first argument, or the binary
convolution special case on the raw input list. -/
def has_inputs (n : CntkNode) : Bool :=
  (match n.arguments with
   | a :: _ => a.shape.length > 0
   | [] => false)
  || (n.op_name == "Convolution" &&
      (match n.inputs with
       | i :: _ => i.shape.length > 0
       | [] => false))

/-- `BaseLayer.set_output_characteristics`: with a next wrapper, the output
padding is the next wrapper's input padding and the output shape is the raw
output shape adjusted by it; for the last wrapper the output is unpadded. -/
def set_output_characteristics (l : LayerObject) (nextLayer : Option LayerObject) :
    LayerObject :=
  match nextLayer with
  | Option.some nl =>
    { l with ellOutputPadding := nl.ellInputPadding,
             ellOutputShape := get_adjusted_shape l.node.output.shape nl.ellInputPadding,
             ellOutputShapeMinusPadding := get_shape l.node.output.shape }
  | Option.none =>
    let os := get_adjusted_shape l.node.output.shape NoPadding
    { l with ellOutputPadding := NoPadding,
             ellOutputShape := os,
             ellOutputShapeMinusPadding := os }

/-- The second pass of `get_filtered_layers_list`: each wrapper's output
characteristics are set from its successor, the last from `None`. -/
def setOutputPass : List LayerObject → List LayerObject
  | [] => []
  | [l] => [set_output_characteristics l Option.none]
  | l :: l2 :: rest => set_output_characteristics l (Option.some l2) :: setOutputPass (l2 :: rest)

/-- The classification loop of `get_filtered_layers_list`: walk the nodes,
skip non-Function items and input-less nodes, append classified wrappers, and
remember an unclassified `CrossEntropyWithSoftmax` node as the pending trailing
softmax (last one wins). -/
def filterPhase (acc : List LayerObject) (sm : Option LayerObject) :
    List CntkNode → Except PyErr (List LayerObject × Option LayerObject)
  | [] => Except.ok (acc, sm)
  | n :: rest =>
    if n.isFunction then
      if has_inputs n then
        match get_layer_object n with
        | Except.error e => Except.error e
        | Except.ok (Option.some l) => filterPhase (acc ++ [l]) sm rest
        | Except.ok Option.none =>
          if n.op_name == "CrossEntropyWithSoftmax" then
            match softmaxLayerInit n with
            | Except.error e => Except.error e
            | Except.ok s => filterPhase acc (Option.some s) rest
          else filterPhase acc sm rest
      else filterPhase acc sm rest
    else filterPhase acc sm rest

/-- `get_filtered_layers_list`: classification loop, then the retroactive
append of the pending trailing softmax, then the truncation to
`maxLayerCount`, then the output-characteristics pass. -/
def get_filtered_layers_list (modelLayers : List CntkNode) (maxLayerCount : Option Nat) :
    Except PyErr (List LayerObject) :=
  match filterPhase [] Option.none modelLayers with
  | Except.error e => Except.error e
  | Except.ok (relevantLayers, lastSoftmaxLayer) =>
    let withSoftmax :=
      match lastSoftmaxLayer with
      | Option.some s => relevantLayers ++ [s]
      | Option.none => relevantLayers
    let truncated :=
      match maxLayerCount with
      | Option.some k => withSoftmax.take (min k withSoftmax.length)
      | Option.none => withSoftmax
    Except.ok (setOutputPass truncated)

/-- The kind tag of an emitted ELL primitive layer, with the structural
convolution / pooling parameters the importer computes for it. -/
inductive PrimitiveKind where
  | fullyConnected
  | bias
  | activation (t : ActivationType)
  | preluActivation
  | softmax
  | convolutional (receptiveField stride filterBatchSize : Nat)
  | binaryConvolutional (receptiveField stride : Nat)
  | pooling (pt : PoolingType) (size stride : Nat)
  | scaling
  | batchNormalization
deriving DecidableEq

/-- ELL.LayerParameters: the (inputShape, inputPadding, outputShape,
outputPadding) quadruple of every emitted primitive layer. -/
structure LayerParameters where
  inputShape : TensorShape
  inputPadding : PaddingParameters
  outputShape : TensorShape
  outputPadding : PaddingParameters
deriving DecidableEq

/-- An emitted primitive target layer (numeric payloads are external
marshalling and are not carried). -/
structure PrimitiveLayer where
  kind : PrimitiveKind
  params : LayerParameters
deriving DecidableEq

/-- The `firstLayerParameters` of the fused Dense / Linear / Convolution /
BatchNormalization emissions. -/
def firstLayerParameters (l : LayerObject) : LayerParameters :=
  { inputShape := l.ellInputShape, inputPadding := l.ellInputPadding,
    outputShape := l.ellOutputShapeMinusPadding, outputPadding := NoPadding }

/-- The `middleLayerParameters` of the fused emissions. -/
def middleLayerParameters (l : LayerObject) : LayerParameters :=
  { inputShape := l.ellOutputShapeMinusPadding, inputPadding := NoPadding,
    outputShape := l.ellOutputShapeMinusPadding, outputPadding := NoPadding }

/-- The `lastLayerParameters` of the fused emissions. -/
def lastLayerParameters (l : LayerObject) : LayerParameters :=
  { inputShape := l.ellOutputShapeMinusPadding, inputPadding := NoPadding,
    outputShape := l.ellOutputShape, outputPadding := l.ellOutputPadding }

/-- The plain quadruple used by the single-primitive emissions. -/
def standardLayerParameters (l : LayerObject) : LayerParameters :=
  { inputShape := l.ellInputShape, inputPadding := l.ellInputPadding,
    outputShape := l.ellOutputShape, outputPadding := l.ellOutputPadding }

/-- The layers emitted by `DenseLayer.process` (and the textually identical
`LinearLayer.process`): FullyConnected, then Bias, then an Activation or
Softmax layer when the block's internal sub-graph has one — softmax taking
priority; the bias gets the middle parameters exactly when a third layer
follows. -/
def denseEmit (l : LayerObject) : List PrimitiveLayer :=
  let isSoftmaxActivation := l.node.blockInternalSoftmax
  let activationType := l.node.blockInternalActivation
  let hasActivation := isSoftmaxActivation || activationType.isSome
  let biasParams := if hasActivation then middleLayerParameters l else lastLayerParameters l
  let base := [{ kind := PrimitiveKind.fullyConnected, params := firstLayerParameters l },
               { kind := PrimitiveKind.bias, params := biasParams }]
  if isSoftmaxActivation then
    base ++ [{ kind := PrimitiveKind.softmax, params := lastLayerParameters l }]
  else
    match activationType with
    | Option.some a =>
      base ++ [{ kind := PrimitiveKind.activation a, params := lastLayerParameters l }]
    | Option.none => base

/-- The layers emitted by `ConvolutionLayer.process`: Convolution, Bias, then
optionally an Activation / Softmax, with the same padding layering as Dense;
receptive field is `weights.shape[2]`, stride `strides[2]`, filter batch size
the output channel count. -/
def convolutionEmit (l : LayerObject) : Except PyErr (List PrimitiveLayer) :=
  match l.weightsParameter with
  | Option.none => Except.error PyErr.attributeError
  | Option.some w =>
    match l.subAttributes with
    | Option.none => Except.error PyErr.attributeError
    | Option.some attrs =>
      match w.shape.get? 2 with
      | Option.none => Except.error PyErr.indexError
      | Option.some receptiveField =>
        match attrs.strides with
        | Option.none => Except.error PyErr.keyError
        | Option.some st =>
          match st.get? 2 with
          | Option.none => Except.error PyErr.indexError
          | Option.some stride =>
            let filterBatchSize := (firstLayerParameters l).outputShape.channels
            let isSoftmaxActivation := l.node.blockInternalSoftmax
            let activationType := l.node.blockInternalActivation
            let hasActivation := isSoftmaxActivation || activationType.isSome
            let biasParams :=
              if hasActivation then middleLayerParameters l else lastLayerParameters l
            let base :=
              [{ kind := PrimitiveKind.convolutional receptiveField stride filterBatchSize,
                 params := firstLayerParameters l },
               { kind := PrimitiveKind.bias, params := biasParams }]
            Except.ok
              (if isSoftmaxActivation then
                base ++ [{ kind := PrimitiveKind.softmax, params := lastLayerParameters l }]
              else
                match activationType with
                | Option.some a =>
                  base ++ [{ kind := PrimitiveKind.activation a,
                             params := lastLayerParameters l }]
                | Option.none => base)

/-- The single layer emitted by `BinaryConvolutionLayer.process`. -/
def binaryConvolutionEmit (l : LayerObject) : Except PyErr (List PrimitiveLayer) :=
  match l.weightsParameter with
  | Option.none => Except.error PyErr.attributeError
  | Option.some w =>
    match l.subAttributes with
    | Option.none => Except.error PyErr.attributeError
    | Option.some attrs =>
      match w.shape.get? 2 with
      | Option.none => Except.error PyErr.indexError
      | Option.some receptiveField =>
        match attrs.strides with
        | Option.none => Except.error PyErr.keyError
        | Option.some st =>
          match st.get? 2 with
          | Option.none => Except.error PyErr.indexError
          | Option.some stride =>
            Except.ok [{ kind := PrimitiveKind.binaryConvolutional receptiveField stride,
                         params := standardLayerParameters l }]

/-- The single Scaling layer emitted by `ElementTimesLayer.process` (the
size-1 / element-wise branch only selects the payload conversion). -/
def elementTimesEmit (l : LayerObject) : Except PyErr (List PrimitiveLayer) :=
  match l.scaleParameter with
  | Option.none => Except.error PyErr.attributeError
  | Option.some _ =>
    Except.ok [{ kind := PrimitiveKind.scaling, params := standardLayerParameters l }]

/-- The single Pooling layer emitted by `BasePoolingLayer.process`: window size
`poolingWindowShape[0]`, stride `strides[0]`. -/
def basePoolingEmit (l : LayerObject) (pt : PoolingType) : Except PyErr (List PrimitiveLayer) :=
  match l.subAttributes with
  | Option.none => Except.error PyErr.attributeError
  | Option.some attrs =>
    match attrs.poolingWindowShape with
    | Option.none => Except.error PyErr.keyError
    | Option.some pw =>
      match pw.get? 0 with
      | Option.none => Except.error PyErr.indexError
      | Option.some poolingSize =>
        match attrs.strides with
        | Option.none => Except.error PyErr.keyError
        | Option.some st =>
          match st.get? 0 with
          | Option.none => Except.error PyErr.indexError
          | Option.some stride =>
            Except.ok [{ kind := PrimitiveKind.pooling pt poolingSize stride,
                         params := standardLayerParameters l }]

/-- The single Softmax layer emitted by `SoftmaxLayer.process`, with the
CrossEntropyWithSoftmax special case forcing output = input. -/
def softmaxEmit (l : LayerObject) : List PrimitiveLayer :=
  let p :=
    if l.node.op_name == "CrossEntropyWithSoftmax" then
      { inputShape := l.ellInputShape, inputPadding := l.ellInputPadding,
        outputShape := l.ellInputShape, outputPadding := l.ellInputPadding :
        LayerParameters }
    else standardLayerParameters l
  [{ kind := PrimitiveKind.softmax, params := p }]

/-- The three layers emitted by `BatchNormalizationLayer.process`:
BatchNormalization, Scaling, Bias with the first / middle / last layering. -/
def batchNormalizationEmit (l : LayerObject) : List PrimitiveLayer :=
  [{ kind := PrimitiveKind.batchNormalization, params := firstLayerParameters l },
   { kind := PrimitiveKind.scaling, params := middleLayerParameters l },
   { kind := PrimitiveKind.bias, params := lastLayerParameters l }]

/-- The single Bias layer emitted by `BiasLayer.process` (reads
`parameters[0]`). -/
def biasEmit (l : LayerObject) : Except PyErr (List PrimitiveLayer) :=
  match l.node.parameters with
  | [] => Except.error PyErr.indexError
  | _ :: _ =>
    Except.ok [{ kind := PrimitiveKind.bias, params := standardLayerParameters l }]

/-- The single Bias layer emitted by `NegativeBiasLayer.process` (reads
`constants[0]` for the negated payload). -/
def negativeBiasEmit (l : LayerObject) : Except PyErr (List PrimitiveLayer) :=
  match l.node.constants with
  | [] => Except.error PyErr.indexError
  | _ :: _ =>
    Except.ok [{ kind := PrimitiveKind.bias, params := standardLayerParameters l }]

/-- The single parametric activation layer emitted by `PReLULayer.process`. -/
def preluEmit (l : LayerObject) : Except PyErr (List PrimitiveLayer) :=
  match l.preluParameter with
  | Option.none => Except.error PyErr.attributeError
  | Option.some _ =>
    Except.ok [{ kind := PrimitiveKind.preluActivation,
                 params := standardLayerParameters l }]

/-- The layers a wrapper's `process` appends, by wrapper class.  The generic
Pooling wrapper delegates to its resolved sub-wrapper (which shares the node
and its annotations); max / average pooling use their own pooling type. -/
def emitLayer (l : LayerObject) : Except PyErr (List PrimitiveLayer) :=
  match l.kind with
  | LayerKind.dense => Except.ok (denseEmit l)
  | LayerKind.linear => Except.ok (denseEmit l)
  | LayerKind.convolution => convolutionEmit l
  | LayerKind.binaryConvolution => binaryConvolutionEmit l
  | LayerKind.elementTimes => elementTimesEmit l
  | LayerKind.maxPooling =>
    (match l.poolingType with
     | Option.none => Except.error PyErr.attributeError
     | Option.some pt => basePoolingEmit l pt)
  | LayerKind.averagePooling =>
    (match l.poolingType with
     | Option.none => Except.error PyErr.attributeError
     | Option.some pt => basePoolingEmit l pt)
  | LayerKind.pooling =>
    (match l.actualPoolingType with
     | Option.none => Except.error PyErr.attributeError
     | Option.some pt => basePoolingEmit l pt)
  | LayerKind.relu =>
    Except.ok [{ kind := PrimitiveKind.activation ActivationType.relu,
                 params := standardLayerParameters l }]
  | LayerKind.leakyRelu =>
    Except.ok [{ kind := PrimitiveKind.activation ActivationType.leaky,
                 params := standardLayerParameters l }]
  | LayerKind.prelu => preluEmit l
  | LayerKind.softmax => Except.ok (softmaxEmit l)
  | LayerKind.batchNormalization => Except.ok (batchNormalizationEmit l)
  | LayerKind.bias => biasEmit l
  | LayerKind.negativeBias => negativeBiasEmit l

/-- A wrapper's `process(ellLayers)`: every fallible read of the source method
happens before its first append, so processing either fails without touching
the list or appends the whole emitted group at the end. -/
def processLayer (l : LayerObject) (ellLayers : List PrimitiveLayer) :
    Except PyErr (List PrimitiveLayer) :=
  match emitLayer l with
  | Except.error e => Except.error e
  | Except.ok news => Except.ok (ellLayers ++ news)

/-- The loop of `convert_cntk_layers_to_ell_layers`. -/
def convertLoop : List LayerObject → List PrimitiveLayer → Except PyErr (List PrimitiveLayer)
  | [], acc => Except.ok acc
  | l :: rest, acc =>
    match processLayer l acc with
    | Except.error e => Except.error e
    | Except.ok acc2 => convertLoop rest acc2

/-- `convert_cntk_layers_to_ell_layers`: process every wrapper in order into
one flat primitive-layer list. -/
def convert_cntk_layers_to_ell_layers (layersToConvert : List LayerObject) :
    Except PyErr (List PrimitiveLayer) :=
  convertLoop layersToConvert []

/-- Chained adjacency on a list of layer-parameter quadruples: each entry's
output shape and output padding equal the next entry's input shape and input
padding. -/
def chainedParams : List LayerParameters → Prop
  | p :: q :: rest =>
    (p.outputShape = q.inputShape ∧ p.outputPadding = q.inputPadding) ∧
    chainedParams (q :: rest)
  | _ => True

/-- The layering of a fused multi-primitive emission: contiguously chained,
the first primitive carries `firstLayerParameters`, the last
`lastLayerParameters`, and everything strictly between them
`middleLayerParameters`. -/
def fusedChainOk (l : LayerObject) (ps : List LayerParameters) : Prop :=
  chainedParams ps ∧
  ps.head? = Option.some (firstLayerParameters l) ∧
  ps.getLast? = Option.some (lastLayerParameters l) ∧
  (ps.drop 1).dropLast =
    List.replicate ((ps.drop 1).dropLast.length) (middleLayerParameters l)

/-- Following the spec's words for claim C1 (refinement comparison only; the
source-embedded pipeline is `get_filtered_layers_list`): the maximum-layer-count
truncation is applied to the classified-wrapper list first, without counting the
pending trailing Softmax wrapper, and only afterwards is the pending trailing
Softmax appended. -/
def get_filtered_layers_list_claimC1 (modelLayers : List CntkNode)
    (maxLayerCount : Option Nat) : Except PyErr (List LayerObject) :=
  match filterPhase [] Option.none modelLayers with
  | Except.error e => Except.error e
  | Except.ok (relevantLayers, lastSoftmaxLayer) =>
    let truncated :=
      match maxLayerCount with
      | Option.some k => relevantLayers.take (min k relevantLayers.length)
      | Option.none => relevantLayers
    let final :=
      match lastSoftmaxLayer with
      | Option.some s => truncated ++ [s]
      | Option.none => truncated
    Except.ok (setOutputPass final)

instance {ε α : Type} [DecidableEq ε] [DecidableEq α] : DecidableEq (Except ε α) :=
  fun a b =>
    match a, b with
    | Except.ok x, Except.ok y =>
      if h : x = y then Decidable.isTrue (by rw [h]) else Decidable.isFalse (by simp [h])
    | Except.error x, Except.error y =>
      if h : x = y then Decidable.isTrue (by rw [h]) else Decidable.isFalse (by simp [h])
    | Except.ok _, Except.error _ => Decidable.isFalse (by simp)
    | Except.error _, Except.ok _ => Decidable.isFalse (by simp)

/-- A ReLU node over a 4x4x2 input. -/
def c1ReluNode : CntkNode :=
  { op_name := "ReLU", arguments := [{ shape := [4, 4, 2] }],
    output := { shape := [4, 4, 2] } }

/-- A CrossEntropyWithSoftmax node: unclassified by the factory, remembered by
the pipeline as the pending trailing softmax. -/
def c1CeNode : CntkNode :=
  { op_name := "CrossEntropyWithSoftmax", arguments := [{ shape := [10] }],
    output := { shape := [1] } }

/-- The wrapper the pipeline classifies `c1ReluNode` into. -/
def c1ReluWrapper : LayerObject :=
  { kind := LayerKind.relu, node := c1ReluNode, inputShapeRaw := [4, 4, 2],
    ellInputShape := { rows := 4, columns := 4, channels := 2 },
    ellInputPadding := defaultInputPadding }

/-- The pending trailing softmax wrapper built from `c1CeNode`. -/
def c1SoftmaxWrapper : LayerObject :=
  { kind := LayerKind.softmax, node := c1CeNode, inputShapeRaw := [10],
    ellInputShape := { rows := 1, columns := 1, channels := 10 },
    ellInputPadding := defaultInputPadding }

/-- A well-formed generic Pooling node whose `poolingType` attribute is max. -/
def c2PoolingNode : CntkNode :=
  { op_name := "Pooling", arguments := [{ shape := [4, 4, 2] }],
    attributes := { autoPadding := Option.some [true], upperPad := Option.some [0],
                    strides := Option.some [2], poolingWindowShape := Option.some [2],
                    poolingType := Option.some CntkPoolingType.maxPool },
    output := { shape := [2, 2, 2] } }

/-- A Minus node with exactly one constant whose value has 5 elements (not 1)
and the reserved output name. -/
def c3MinusNode : CntkNode :=
  { op_name := "Minus", arguments := [{ shape := [4, 4, 2] }],
    constants := [{ name := "c", value := { size := 5 } }],
    output := { shape := [4, 4, 2], name := "mean_removed_input" } }

/-- A Minus node with two constants, the first of size 1, and the reserved
output name. -/
def c3MinusNode2 : CntkNode :=
  { op_name := "Minus", arguments := [{ shape := [4, 4, 2] }],
    constants := [{ name := "c", value := { size := 1 } },
                  { name := "d", value := { size := 3 } }],
    output := { shape := [4, 4, 2], name := "mean_removed_input" } }

/-- A Minus of two non-constant tensors (no constants at all) whose output name
is not the reserved one. -/
def c7MinusNode : CntkNode :=
  { op_name := "Minus", arguments := [{ shape := [4, 4, 2] }],
    constants := [],
    output := { shape := [4, 4, 2], name := "someOutput" } }

/-- A Minus node with one constant but a non-reserved output name. -/
def c7SkippedMinusNode : CntkNode :=
  { op_name := "Minus", arguments := [{ shape := [4, 4, 2] }],
    constants := [{ name := "c", value := { size := 1 } }],
    output := { shape := [4, 4, 2], name := "not_the_reserved_name" } }

/-- Weights with receptive field `shape[2] = 5`. -/
def c4WeightsRF5 : CntkParameter := { name := "W", shape := [16, 3, 5, 5] }

/-- `autoPadding=[false,false]`, `upperPad=[2,2]`. -/
def c4AttrsFF : CntkAttributes :=
  { autoPadding := Option.some [false, false], upperPad := Option.some [2, 2] }

/-- `autoPadding=[true,true]`, `upperPad=[2,2]`. -/
def c4AttrsTT : CntkAttributes :=
  { autoPadding := Option.some [true, true], upperPad := Option.some [2, 2] }

/-- Pooling attributes: `autoPadding=[true,true]`, window `[2]`,
`upperPad=[2,2]`. -/
def c4PoolAttrs : CntkAttributes :=
  { autoPadding := Option.some [true, true], upperPad := Option.some [2, 2],
    poolingWindowShape := Option.some [2] }

/-- A Dense node that is not a block: its constructor raises the
classification `ValueError`. -/
def c8DenseNonBlockNode : CntkNode :=
  { op_name := "Dense", is_block := false, arguments := [{ shape := [3] }],
    output := { shape := [5] } }

/-- A fully resolved Dense wrapper with no internal activation. -/
def c5DenseWrapper : LayerObject :=
  { kind := LayerKind.dense,
    node := { op_name := "Dense", is_block := true, arguments := [{ shape := [8] }],
              output := { shape := [4] } },
    inputShapeRaw := [8],
    ellInputShape := { rows := 1, columns := 1, channels := 8 },
    ellInputPadding := defaultInputPadding,
    ellOutputShape := { rows := 1, columns := 1, channels := 4 },
    ellOutputPadding := NoPadding,
    ellOutputShapeMinusPadding := { rows := 1, columns := 1, channels := 4 } }

/-- A fully resolved ReLU wrapper. -/
def c9ReluWrapper : LayerObject :=
  { kind := LayerKind.relu, node := c1ReluNode, inputShapeRaw := [4, 4, 2],
    ellInputShape := { rows := 4, columns := 4, channels := 2 },
    ellInputPadding := defaultInputPadding,
    ellOutputShape := { rows := 4, columns := 4, channels := 2 },
    ellOutputPadding := NoPadding,
    ellOutputShapeMinusPadding := { rows := 4, columns := 4, channels := 2 } }

/-- A fully resolved BatchNormalization wrapper. -/
def c10BnWrapper : LayerObject :=
  { kind := LayerKind.batchNormalization,
    node := { op_name := "BatchNormalization", arguments := [{ shape := [4, 4, 2] }],
              output := { shape := [4, 4, 2] } },
    inputShapeRaw := [4, 4, 2],
    ellInputShape := { rows := 4, columns := 4, channels := 2 },
    ellInputPadding := defaultInputPadding,
    ellOutputShape := { rows := 6, columns := 6, channels := 2 },
    ellOutputPadding := { paddingScheme := PaddingScheme.zeros, paddingSize := 1 },
    ellOutputShapeMinusPadding := { rows := 4, columns := 4, channels := 2 } }

lemma get_adjusted_shape_noPadding (s : List Nat) :
    get_adjusted_shape s NoPadding = get_shape s := by
  simp [get_adjusted_shape, NoPadding]

/-- C6: `set_output_characteristics(None)` (terminal case) sets the output
padding to none and the output shape to the unpadded raw output shape; with a
next wrapper, the output padding is the next wrapper's resolved input padding
and the output shape the raw output shape adjusted by it; and in every case
`output_shape_minus_padding` records the unpadded raw output shape. -/
theorem set_output_characteristics_spec :
    ∀ (l nl : LayerObject) (next : Option LayerObject),
      (set_output_characteristics l Option.none).ellOutputPadding = NoPadding ∧
      (set_output_characteristics l Option.none).ellOutputShape
        = get_shape l.node.output.shape ∧
      (set_output_characteristics l (Option.some nl)).ellOutputPadding
        = nl.ellInputPadding ∧
      (set_output_characteristics l (Option.some nl)).ellOutputShape
        = get_adjusted_shape l.node.output.shape nl.ellInputPadding ∧
      (set_output_characteristics l next).ellOutputShapeMinusPadding
        = get_shape l.node.output.shape := by
  intro l nl next
  refine ⟨rfl, get_adjusted_shape_noPadding _, rfl, rfl, ?_⟩
  cases next with
  | none => exact get_adjusted_shape_noPadding _
  | some nl2 => rfl

/-- C4: for convolution and pooling nodes, the resolved input padding size is
`floor((receptiveField - 1) / 2)` when the node declares auto-padding for the
spatial dimension (index 1 of `autoPadding` for convolution, index 0 for
pooling), and otherwise the node's explicit `upperPad[0]`; this also holds when
the `autoPadding` attribute is absent altogether, and in particular
`autoPadding=[false,false]` with `upperPad=[2,2]` yields size 2, while
`autoPadding=[true,true]` with receptive field 5 yields size `(5-1)/2 = 2`. -/
theorem input_padding_rule :
    (∀ (w : CntkParameter) (attrs : CntkAttributes) (rf : Nat) (ap : List Bool)
       (b : Bool) (up : List Nat) (u : Nat),
       w.shape.get? 2 = Option.some rf →
       attrs.autoPadding = Option.some ap → ap.get? 1 = Option.some b →
       attrs.upperPad = Option.some up → up.get? 0 = Option.some u →
       convInputPadding (Option.some w) attrs =
         Except.ok { paddingScheme := PaddingScheme.zeros,
                     paddingSize := if b then (rf - 1) / 2 else u }) ∧
    (∀ (w : CntkParameter) (attrs : CntkAttributes) (rf : Nat) (up : List Nat) (u : Nat),
       w.shape.get? 2 = Option.some rf →
       attrs.autoPadding = Option.none →
       attrs.upperPad = Option.some up → up.get? 0 = Option.some u →
       convInputPadding (Option.some w) attrs =
         Except.ok { paddingScheme := PaddingScheme.zeros, paddingSize := u }) ∧
    (∀ (attrs : CntkAttributes) (s : PaddingScheme) (ap : List Bool) (b : Bool)
       (pw : List Nat) (p0 : Nat) (up : List Nat) (u : Nat),
       attrs.autoPadding = Option.some ap → ap.get? 0 = Option.some b →
       attrs.poolingWindowShape = Option.some pw → pw.get? 0 = Option.some p0 →
       attrs.upperPad = Option.some up → up.get? 0 = Option.some u →
       basePoolingPadding attrs (Option.some s) =
         Except.ok { paddingScheme := s,
                     paddingSize := if b then (p0 - 1) / 2 else u }) ∧
    convInputPadding (Option.some c4WeightsRF5) c4AttrsFF
      = Except.ok { paddingScheme := PaddingScheme.zeros, paddingSize := 2 } ∧
    convInputPadding (Option.some c4WeightsRF5) c4AttrsTT
      = Except.ok { paddingScheme := PaddingScheme.zeros, paddingSize := 2 } := by
  refine ⟨?_, ?_, ?_, by decide, by decide⟩
  · intro w attrs rf ap b up u hw hap hb hup hu
    cases b <;> simp_all [convInputPadding]
  · intro w attrs rf up u hw hap hup hu
    simp_all [convInputPadding]
  · intro attrs s ap b pw p0 up u hap hb hpw hp0 hup hu
    cases b <;> simp_all [basePoolingPadding]

/-- Witness for C4 at concrete inputs. -/
theorem input_padding_rule_witness :
    convInputPadding (Option.some c4WeightsRF5) c4AttrsTT
      = Except.ok { paddingScheme := PaddingScheme.zeros, paddingSize := if true then (5 - 1) / 2 else 2 } ∧
    basePoolingPadding c4PoolAttrs (Option.some PaddingScheme.min)
      = Except.ok { paddingScheme := PaddingScheme.min, paddingSize := if true then (2 - 1) / 2 else 2 } := by
  constructor
  · exact input_padding_rule.1 c4WeightsRF5 c4AttrsTT 5 [true, true] true [2, 2] 2
      rfl rfl rfl rfl rfl
  · exact input_padding_rule.2.2.1 c4PoolAttrs PaddingScheme.min [true, true] true
      [2] 2 [2, 2] 2 rfl rfl rfl rfl rfl rfl

/-- C8: every classification failure (`ValueError` / `AttributeError`) raised
by a variant's constructor is caught inside the factory's `get_layer_object`,
which then yields no classification — exactly as for an unrecognized operation
name — and no classification error ever propagates past the factory. -/
theorem factory_catches_classification_errors :
    ∀ (n : CntkNode),
      (∀ e, classifyStep n = Except.error e → isClassificationError e = true →
        get_layer_object n = Except.ok Option.none) ∧
      (∀ e, get_layer_object n = Except.error e → isClassificationError e = false) := by
  intro n
  constructor
  · intro e h hc
    unfold get_layer_object
    rw [h]
    cases e <;> simp_all [isClassificationError]
  · intro e h
    unfold get_layer_object at h
    cases hc : classifyStep n with
    | ok r => rw [hc] at h; cases h
    | error e2 =>
      rw [hc] at h
      cases e2 with
      | valueError m => cases h
      | attributeError => cases h
      | indexError => cases h; rfl
      | keyError => cases h; rfl
      | runtimeError m => cases h; rfl

/-- Witness for C8: a non-block Dense node raises the classification
`ValueError` and the factory yields no classification. -/
theorem factory_catches_classification_errors_witness :
    classifyStep c8DenseNonBlockNode
      = Except.error (PyErr.valueError "Dense node is not a block node") ∧
    get_layer_object c8DenseNonBlockNode = Except.ok Option.none := by
  constructor
  · decide
  · exact (factory_catches_classification_errors c8DenseNonBlockNode).1
      (PyErr.valueError "Dense node is not a block node") (by decide) (by decide)

lemma denseEmit_length_pos (l : LayerObject) : 0 < (denseEmit l).length := by
  unfold denseEmit
  cases l.node.blockInternalSoftmax <;> cases l.node.blockInternalActivation <;> simp

lemma emitLayer_length_pos (l : LayerObject) (news : List PrimitiveLayer)
    (h : emitLayer l = Except.ok news) : 0 < news.length := by
  cases hk : l.kind <;>
    simp only [emitLayer, hk, convolutionEmit, binaryConvolutionEmit, elementTimesEmit,
      basePoolingEmit, softmaxEmit, batchNormalizationEmit, biasEmit, negativeBiasEmit,
      preluEmit] at h <;>
    (repeat' split at h) <;>
    (try cases h) <;>
    simp_all [denseEmit_length_pos]

lemma processLayer_shape (l : LayerObject) (els out : List PrimitiveLayer)
    (h : processLayer l els = Except.ok out) :
    ∃ news, emitLayer l = Except.ok news ∧ out = els ++ news ∧ 0 < news.length := by
  unfold processLayer at h
  cases he : emitLayer l with
  | error e => rw [he] at h; cases h
  | ok news =>
    rw [he] at h
    cases h
    exact ⟨news, rfl, rfl, emitLayer_length_pos l news he⟩

lemma convertLoop_ok (ls : List LayerObject) :
    ∀ (acc out : List PrimitiveLayer), convertLoop ls acc = Except.ok out →
      (∃ ext, out = acc ++ ext) ∧ acc.length + ls.length ≤ out.length := by
  induction ls with
  | nil =>
    intro acc out h
    simp only [convertLoop] at h
    cases h
    exact ⟨⟨[], by simp⟩, by simp⟩
  | cons l rest ih =>
    intro acc out h
    simp only [convertLoop] at h
    cases hp : processLayer l acc with
    | error e => rw [hp] at h; cases h
    | ok acc2 =>
      rw [hp] at h
      obtain ⟨news, _, hacc2, hpos⟩ := processLayer_shape l acc acc2 hp
      obtain ⟨⟨ext, hext⟩, hlen⟩ := ih acc2 out h
      subst hacc2
      refine ⟨⟨news ++ ext, by simp [hext]⟩, ?_⟩
      simp only [List.length_append] at hlen
      simp only [List.length_cons]
      omega

/-- C9: processing a wrapper sequence of length n yields at least n primitive
layers, because every wrapper's `process` appends at least one primitive layer
to the shared list and never removes or reorders the entries already there
(the prior list is always a prefix of the result). -/
theorem convert_length_ge :
    (∀ (ls : List LayerObject) (out : List PrimitiveLayer),
       convert_cntk_layers_to_ell_layers ls = Except.ok out → ls.length ≤ out.length) ∧
    (∀ (l : LayerObject) (els out : List PrimitiveLayer),
       processLayer l els = Except.ok out →
         (∃ ext, out = els ++ ext ∧ ext ≠ []) ∧ els.length < out.length) := by
  constructor
  · intro ls out h
    have := (convertLoop_ok ls [] out h).2
    simpa using this
  · intro l els out h
    obtain ⟨news, _, hout, hpos⟩ := processLayer_shape l els out h
    subst hout
    refine ⟨⟨news, rfl, ?_⟩, ?_⟩
    · intro hnil; rw [hnil] at hpos; cases hpos
    · simp only [List.length_append]; omega

/-- Witness for C9: converting one resolved ReLU wrapper yields one primitive
layer. -/
theorem convert_length_ge_witness :
    convert_cntk_layers_to_ell_layers [c9ReluWrapper]
      = Except.ok [{ kind := PrimitiveKind.activation ActivationType.relu,
                     params := standardLayerParameters c9ReluWrapper }] ∧
    [c9ReluWrapper].length
      ≤ [{ kind := PrimitiveKind.activation ActivationType.relu,
           params := standardLayerParameters c9ReluWrapper : PrimitiveLayer }].length := by
  refine ⟨by decide, convert_length_ge.1 [c9ReluWrapper] _ (by decide)⟩

/-- C5: processing a Dense wrapper whose block has no internal activation
appends exactly the 2 primitives FullyConnected then Bias; with a non-softmax
internal activation exactly 3 (FullyConnected, Bias, Activation); with an
internal softmax exactly 3 ending in a Softmax primitive. -/
theorem dense_emission_counts :
    ∀ (l : LayerObject) (els : List PrimitiveLayer), l.kind = LayerKind.dense →
      (l.node.blockInternalSoftmax = false → l.node.blockInternalActivation = Option.none →
        processLayer l els = Except.ok (els ++
          [{ kind := PrimitiveKind.fullyConnected, params := firstLayerParameters l },
           { kind := PrimitiveKind.bias, params := lastLayerParameters l }])) ∧
      (∀ a, l.node.blockInternalSoftmax = false →
        l.node.blockInternalActivation = Option.some a →
        processLayer l els = Except.ok (els ++
          [{ kind := PrimitiveKind.fullyConnected, params := firstLayerParameters l },
           { kind := PrimitiveKind.bias, params := middleLayerParameters l },
           { kind := PrimitiveKind.activation a, params := lastLayerParameters l }])) ∧
      (l.node.blockInternalSoftmax = true →
        processLayer l els = Except.ok (els ++
          [{ kind := PrimitiveKind.fullyConnected, params := firstLayerParameters l },
           { kind := PrimitiveKind.bias, params := middleLayerParameters l },
           { kind := PrimitiveKind.softmax, params := lastLayerParameters l }])) := by
  intro l els hk
  refine ⟨?_, ?_, ?_⟩
  · intro hsm hact
    simp [processLayer, emitLayer, hk, denseEmit, hsm, hact]
  · intro a hsm hact
    simp [processLayer, emitLayer, hk, denseEmit, hsm, hact]
  · intro hsm
    simp [processLayer, emitLayer, hk, denseEmit, hsm]

/-- Witness for C5: the activation-free Dense wrapper emits exactly
FullyConnected then Bias. -/
theorem dense_emission_counts_witness :
    processLayer c5DenseWrapper [] = Except.ok ([] ++
      [{ kind := PrimitiveKind.fullyConnected, params := firstLayerParameters c5DenseWrapper },
       { kind := PrimitiveKind.bias, params := lastLayerParameters c5DenseWrapper }]) :=
  (dense_emission_counts c5DenseWrapper [] rfl).1 rfl rfl

lemma fusedChainOk_two (l : LayerObject) :
    fusedChainOk l [firstLayerParameters l, lastLayerParameters l] := by
  refine ⟨⟨⟨rfl, rfl⟩, trivial⟩, rfl, rfl, rfl⟩

lemma fusedChainOk_three (l : LayerObject) :
    fusedChainOk l [firstLayerParameters l, middleLayerParameters l, lastLayerParameters l] := by
  refine ⟨⟨⟨rfl, rfl⟩, ⟨rfl, rfl⟩, trivial⟩, rfl, rfl, rfl⟩

/-- C10: within every fused multi-primitive emission (Dense / linear block,
Convolution block, Batch Normalization), the emitted primitives chain
contiguously — each one's output shape and padding equal the next one's input
shape and padding — with the first primitive mapping (inputShape, inputPadding)
to (output_shape_minus_padding, no padding), middle primitives mapping that pair
to itself, and the last mapping it to (outputShape, outputPadding). -/
theorem fused_emission_chains :
    ∀ (l : LayerObject) (ps : List PrimitiveLayer),
      ((l.kind = LayerKind.dense ∨ l.kind = LayerKind.linear) →
        processLayer l [] = Except.ok ps → fusedChainOk l (ps.map PrimitiveLayer.params)) ∧
      (l.kind = LayerKind.convolution →
        processLayer l [] = Except.ok ps → fusedChainOk l (ps.map PrimitiveLayer.params)) ∧
      (l.kind = LayerKind.batchNormalization →
        processLayer l [] = Except.ok ps → fusedChainOk l (ps.map PrimitiveLayer.params)) := by
  intro l ps
  refine ⟨?_, ?_, ?_⟩
  · intro hk h
    have hden : denseEmit l = ps := by
      cases hk with
      | inl hd => simpa [processLayer, emitLayer, hd] using h
      | inr hd => simpa [processLayer, emitLayer, hd] using h
    subst hden
    unfold denseEmit
    cases hsm : l.node.blockInternalSoftmax <;>
      cases hact : l.node.blockInternalActivation <;>
        simp [fusedChainOk_two, fusedChainOk_three]
  · intro hk h
    simp only [processLayer, emitLayer, hk] at h
    cases he : convolutionEmit l with
    | error e => rw [he] at h; cases h
    | ok news =>
      rw [he] at h
      cases h
      unfold convolutionEmit at he
      repeat' split at he
      all_goals (try cases he)
      all_goals
        (cases hsm : l.node.blockInternalSoftmax <;>
          cases hact : l.node.blockInternalActivation <;>
            simp [hsm, hact, List.map_cons, List.nil_append,
              fusedChainOk_two, fusedChainOk_three])
  · intro hk h
    have hbn : batchNormalizationEmit l = ps := by
      simpa [processLayer, emitLayer, hk] using h
    subst hbn
    simp [batchNormalizationEmit, fusedChainOk_three]

/-- Witness for C10: the Batch Normalization wrapper's emitted group chains
contiguously. -/
theorem fused_emission_chains_witness :
    fusedChainOk c10BnWrapper
      (List.map PrimitiveLayer.params
        [{ kind := PrimitiveKind.batchNormalization,
           params := firstLayerParameters c10BnWrapper },
         { kind := PrimitiveKind.scaling, params := middleLayerParameters c10BnWrapper },
         { kind := PrimitiveKind.bias, params := lastLayerParameters c10BnWrapper }]) :=
  (fused_emission_chains c10BnWrapper
    [{ kind := PrimitiveKind.batchNormalization,
       params := firstLayerParameters c10BnWrapper },
     { kind := PrimitiveKind.scaling, params := middleLayerParameters c10BnWrapper },
     { kind := PrimitiveKind.bias, params := lastLayerParameters c10BnWrapper }]).2.2
    rfl rfl

/-- Counterexample to C1 as stated: on a ReLU node followed by a
CrossEntropyWithSoftmax node with a maximum layer count of 1, the source
pipeline appends the pending trailing softmax before truncating (so the
softmax is cut and one wrapper remains), while the claimed order — truncate
the classified list without counting the pending softmax, then append it —
would keep both wrappers. -/
theorem truncation_order_counterexample :
    (get_filtered_layers_list [c1ReluNode, c1CeNode] (Option.some 1)).map
        (fun ls => ls.map LayerObject.kind) = Except.ok [LayerKind.relu] ∧
    (get_filtered_layers_list_claimC1 [c1ReluNode, c1CeNode] (Option.some 1)).map
        (fun ls => ls.map LayerObject.kind)
      = Except.ok [LayerKind.relu, LayerKind.softmax] ∧
    get_filtered_layers_list [c1ReluNode, c1CeNode] (Option.some 1)
      ≠ get_filtered_layers_list_claimC1 [c1ReluNode, c1CeNode] (Option.some 1) := by
  refine ⟨by decide, by decide, by decide⟩

/-- C1 (amended): the pending trailing Softmax wrapper, if any, is appended to
the classified-wrapper list first, and the optional maximum-layer-count
truncation is applied afterwards to the combined list — so the pending trailing
Softmax counts toward the limit and can itself be truncated away. -/
theorem truncation_after_trailing_softmax :
    ∀ (modelLayers : List CntkNode) (k : Nat) (ls : List LayerObject)
      (sm : Option LayerObject),
      filterPhase [] Option.none modelLayers = Except.ok (ls, sm) →
      get_filtered_layers_list modelLayers (Option.some k) =
        Except.ok (setOutputPass
          ((ls ++ sm.toList).take (min k (ls ++ sm.toList).length))) := by
  intro modelLayers k ls sm h
  unfold get_filtered_layers_list
  rw [h]
  cases sm <;> simp [Option.toList]

/-- Witness for the amended C1 at the concrete two-node input. -/
theorem truncation_after_trailing_softmax_witness :
    filterPhase [] Option.none [c1ReluNode, c1CeNode]
      = Except.ok ([c1ReluWrapper], Option.some c1SoftmaxWrapper) ∧
    get_filtered_layers_list [c1ReluNode, c1CeNode] (Option.some 1) =
      Except.ok (setOutputPass
        (([c1ReluWrapper] ++ (Option.some c1SoftmaxWrapper).toList).take
          (min 1 ([c1ReluWrapper] ++ (Option.some c1SoftmaxWrapper).toList).length))) := by
  refine ⟨by decide, ?_⟩
  exact truncation_after_trailing_softmax [c1ReluNode, c1CeNode] 1
    [c1ReluWrapper] (Option.some c1SoftmaxWrapper) (by decide)

/-- C2 fails on the code (the spec states the intent): constructing the generic
Pooling wrapper always raises `AttributeError` — `BasePoolingLayer`'s padding
computation reads `self.padding_scheme`, which `PoolingLayer.__init__` never
sets before calling the base initializer — so the factory skips every generic
Pooling node; and even the delegate selection itself is swapped, constructing
the average-pooling sub-wrapper (zero-fill) for a max `poolingType` and the
max-pooling sub-wrapper (min-value-fill) otherwise. -/
theorem pooling_dispatch_bug :
    poolingLayerInit c2PoolingNode = Except.error PyErr.attributeError ∧
    get_layer_object c2PoolingNode = Except.ok Option.none ∧
    (poolingSelect c2PoolingNode CntkPoolingType.maxPool).map LayerObject.kind
      = Except.ok LayerKind.averagePooling ∧
    (poolingSelect c2PoolingNode CntkPoolingType.maxPool).map
        (fun w => w.ellInputPadding.paddingScheme) = Except.ok PaddingScheme.zeros ∧
    (poolingSelect c2PoolingNode CntkPoolingType.averagePool).map LayerObject.kind
      = Except.ok LayerKind.maxPooling := by
  refine ⟨by decide, by decide, by decide, by decide, by decide⟩

/-- C3 fails on the code (the guard uses `and` where the stated precondition
needs `or`): a Minus node with one constant of size 5, and one with two
constants whose first has size 1 — both with the reserved output name — are
classified as Negative-Bias wrappers even though neither has exactly one
constant of size 1. -/
theorem negative_bias_guard_bug :
    (get_layer_object c3MinusNode).map (Option.map LayerObject.kind)
      = Except.ok (Option.some LayerKind.negativeBias) ∧
    (get_layer_object c3MinusNode2).map (Option.map LayerObject.kind)
      = Except.ok (Option.some LayerKind.negativeBias) := by
  refine ⟨by decide, by decide⟩

/-- C7 fails on the code for a Minus node with no constants: the short-circuit
`and` in the guard evaluates `constants[0]`, raising `IndexError`, which the
factory's `except (ValueError, AttributeError)` does not catch, so the error
aborts the whole pipeline instead of the node being skipped; a Minus node with
one constant and a non-reserved output name is, as claimed, skipped and
contributes nothing. -/
theorem minus_wrong_name_bug :
    get_layer_object c7MinusNode = Except.error PyErr.indexError ∧
    get_filtered_layers_list [c7MinusNode] Option.none
      = Except.error PyErr.indexError ∧
    get_layer_object c7SkippedMinusNode = Except.ok Option.none ∧
    get_filtered_layers_list [c7SkippedMinusNode] Option.none = Except.ok [] ∧
    convert_cntk_layers_to_ell_layers [] = Except.ok [] := by
  refine ⟨by decide, by decide, by decide, by decide, by decide⟩
